import Mathlib

set_option maxHeartbeats 1000000
set_option maxRecDepth 100000

/-!
Shallow embedding of the Sparvio Serial Protocol ("SSP") core, translated
from the Python sources of the repository (core/componentbase.py,
core/network.py, core/framing.py, sspt/ontology.py, sspt/pyObjects.py).

Python dicts are modelled as association lists (insertion ordered, keys
unique), Python object references by explicit numeric identities where
object identity matters, machine integers by Nat/Int, and fallible code
by Except.  Functions raising exceptions return Except; asserts are
modelled as distinguished error outcomes.
-/

/-! ## Protocol constants (core/ssplink.py) -/

def SSP_INVALID_COMPONENT_ID : Nat := 0

def SSP_CENTRAL_ID : Nat := 1

def SSP_LINK_ID : Nat := 255

def SSP_COMPONENT_MODULUS : Nat := 128

def SSP_BIGGEST_REGULAR_COMPONENT_ID : Nat := SSP_COMPONENT_MODULUS - 4

/-! ## RPC tickets (core/componentbase.py, `make_ticket_with_callback` and
`remove_ticket`)

`self.reply_callbacks` is a dict from ticket number to callback; callbacks
are opaque to the ticket logic and are modelled by numeric handles.  The
dict is an association list with unique keys. -/

/-- One iteration of the advance in `make_ticket_with_callback`:
`if self._last_ticket >= 250: self._last_ticket = 1 else: self._last_ticket += 1`. -/
def ticketAdvance (last : Nat) : Nat :=
  if last ≥ 250 then 1 else last + 1

/-- The `for i in range(250)` loop of `make_ticket_with_callback`: advance
`_last_ticket`, breaking as soon as the ticket is not in `reply_callbacks`.
The first argument is the number of remaining loop iterations (250 at the
top); when iterations run out the current `_last_ticket` is kept, exactly
as when the Python loop ends without `break`. -/
def ticketSearch : Nat → Nat → List (Nat × Nat) → Nat
  | 0, last, _ => last
  | n + 1, last, cbs =>
    if (cbs.lookup (ticketAdvance last)).isSome then
      ticketSearch n (ticketAdvance last) cbs
    else ticketAdvance last

/-- Source: `ComponentBase.make_ticket_with_callback` (componentbase.py lines
139-153): advance to an unused ticket number; if still occupied after the
loop, `raise Exception("All tickets are occupied")`; otherwise register the
callback and return the ticket.  Returns the ticket together with the
updated `reply_callbacks` dict. -/
def make_ticket_with_callback (last : Nat) (cbs : List (Nat × Nat)) (cb : Nat) :
    Except String (Nat × List (Nat × Nat)) :=
  if (cbs.lookup (ticketSearch 250 last cbs)).isSome then
    .error "All tickets are occupied"
  else
    .ok (ticketSearch 250 last cbs, (ticketSearch 250 last cbs, cb) :: cbs)

/-- Source: `ComponentBase.remove_ticket` (componentbase.py lines 155-160): if the
ticket is not registered, return without touching anything; otherwise
delete the entry.  The early return makes the function total: no KeyError
can occur. -/
def remove_ticket (cbs : List (Nat × Nat)) (ticket : Nat) : List (Nat × Nat) :=
  if (cbs.lookup ticket).isNone then cbs
  else cbs.eraseP (fun p => p.1 == ticket)

/-! ### Ticket lemmas and claims C2, C10 -/

theorem ticketAdvance_bounds (last : Nat) :
    1 ≤ ticketAdvance last ∧ ticketAdvance last ≤ 250 := by
  unfold ticketAdvance; split <;> omega

theorem ticketSearch_bounds (n : Nat) :
    ∀ (last : Nat) (cbs : List (Nat × Nat)), 1 ≤ n →
      1 ≤ ticketSearch n last cbs ∧ ticketSearch n last cbs ≤ 250 := by
  induction n with
  | zero => intro _ _ h; omega
  | succ m ih =>
    intro last cbs _
    simp only [ticketSearch]
    split
    · rcases Nat.eq_zero_or_pos m with hm | hm
      · subst hm; simpa [ticketSearch] using ticketAdvance_bounds last
      · exact ih (ticketAdvance last) cbs hm
    · exact ticketAdvance_bounds last

/-- The occupancy pattern of the counterexample: tickets 1..249 all
outstanding (`reply_callbacks` holds 249 entries). -/
def occ249 : List (Nat × Nat) := (List.range 249).map (fun i => (i + 1, 0))

/-- All 250 reachable ticket numbers outstanding. -/
def occ250 : List (Nat × Nat) := (List.range 250).map (fun i => (i + 1, 0))

/-- C2 counterexample: with all 249 tickets of the claimed range 1..249
outstanding (and `_last_ticket` = 0), `make_ticket_with_callback` does not
raise; it hands out ticket 250, which lies outside the claimed range
1..249.  This falsifies both halves of the claim at a concrete input. -/
theorem make_ticket_counterexample :
    make_ticket_with_callback 0 occ249 7 = .ok (250, (250, 7) :: occ249) ∧
    ¬(1 ≤ 250 ∧ (250 : Nat) ≤ 249) := by
  constructor
  · rfl
  · decide

/-- C2 (amended): every ticket returned by `make_ticket_with_callback`
lies in 1..250 and is not currently outstanding, and calling it while all
250 tickets 1..250 are outstanding raises the internal error
"All tickets are occupied". -/
theorem make_ticket_range_and_exhaustion (last cb : Nat) (cbs : List (Nat × Nat)) :
    (∀ t rest, make_ticket_with_callback last cbs cb = .ok (t, rest) →
        1 ≤ t ∧ t ≤ 250 ∧ cbs.lookup t = none) ∧
    ((∀ t, 1 ≤ t → t ≤ 250 → (cbs.lookup t).isSome) →
        make_ticket_with_callback last cbs cb = .error "All tickets are occupied") := by
  have hb := ticketSearch_bounds 250 last cbs (by omega)
  constructor
  · intro t rest h
    unfold make_ticket_with_callback at h
    by_cases hc : (cbs.lookup (ticketSearch 250 last cbs)).isSome
    · rw [if_pos hc] at h
      exact absurd h (by simp)
    · rw [if_neg hc, Except.ok.injEq, Prod.mk.injEq] at h
      obtain ⟨ht, -⟩ := h
      subst ht
      exact ⟨hb.1, hb.2, Option.not_isSome_iff_eq_none.mp hc⟩
  · intro hfull
    have hocc := hfull _ hb.1 hb.2
    unfold make_ticket_with_callback
    simp [hocc]

/-- Witness for C2's amended theorem, applying it at concrete inputs. -/
theorem make_ticket_witness :
    (1 ≤ 1 ∧ 1 ≤ 250 ∧ ([] : List (Nat × Nat)).lookup 1 = none) ∧
    make_ticket_with_callback 0 occ250 7 = .error "All tickets are occupied" := by
  have hball : ∀ t, t < 251 → 1 ≤ t → (occ250.lookup t).isSome := by decide
  exact ⟨(make_ticket_range_and_exhaustion 0 7 []).1 1 [(1, 7)] rfl,
         (make_ticket_range_and_exhaustion 0 7 occ250).2
           (fun t h1 h2 => hball t (by omega) h1)⟩

theorem lookup_eq_none_of_not_mem (l : List (Nat × Nat)) (k : Nat)
    (h : k ∉ l.map Prod.fst) : l.lookup k = none := by
  induction l with
  | nil => rfl
  | cons p rest ih =>
    obtain ⟨k1, v1⟩ := p
    simp only [List.map_cons, List.mem_cons] at h
    push_neg at h
    have hk : (k == k1) = false := beq_eq_false_iff_ne.mpr h.1
    simp only [List.lookup, hk]
    exact ih h.2

theorem lookup_eraseP_eq_none (cbs : List (Nat × Nat)) (ticket : Nat)
    (hnd : (cbs.map Prod.fst).Nodup) :
    (cbs.eraseP (fun p => p.1 == ticket)).lookup ticket = none := by
  induction cbs with
  | nil => rfl
  | cons p rest ih =>
    obtain ⟨k, v⟩ := p
    simp only [List.map_cons, List.nodup_cons] at hnd
    by_cases hk : k = ticket
    · subst hk
      rw [List.eraseP_cons_of_pos (by simp)]
      exact lookup_eq_none_of_not_mem rest k hnd.1
    · rw [List.eraseP_cons_of_neg (by simp [hk])]
      have hk2 : (ticket == k) = false := beq_eq_false_iff_ne.mpr (Ne.symm hk)
      simp only [List.lookup, hk2]
      exact ih hnd.2

/-- C10: `remove_ticket` is total (it returns a table, never an error) and
idempotent: removing an unregistered ticket leaves `reply_callbacks`
unchanged, and removing the same ticket twice equals removing it once. -/
theorem remove_ticket_unregistered_noop (cbs : List (Nat × Nat)) (ticket : Nat)
    (hnd : (cbs.map Prod.fst).Nodup) :
    (cbs.lookup ticket = none → remove_ticket cbs ticket = cbs) ∧
    remove_ticket (remove_ticket cbs ticket) ticket = remove_ticket cbs ticket := by
  constructor
  · intro h; simp [remove_ticket, h]
  · by_cases h : cbs.lookup ticket = none
    · simp [remove_ticket, h]
    · have h1 : remove_ticket cbs ticket = cbs.eraseP (fun p => p.1 == ticket) := by
        simp [remove_ticket, Option.isNone_iff_eq_none, h]
      rw [h1]
      have h2 := lookup_eraseP_eq_none cbs ticket hnd
      simp [remove_ticket, h2]

/-- Witness for C10, applying the theorem at concrete tables. -/
theorem remove_ticket_witness :
    remove_ticket [(1, 5)] 2 = [(1, 5)] ∧
    remove_ticket (remove_ticket [(3, 4), (1, 5)] 3) 3 =
      remove_ticket [(3, 4), (1, 5)] 3 :=
  ⟨(remove_ticket_unregistered_noop [(1, 5)] 2 (by decide)).1 rfl,
   (remove_ticket_unregistered_noop [(3, 4), (1, 5)] 3 (by decide)).2⟩

/-! ## Node protocol state (core/componentbase.py, class ComponentBase)

Links are identified by numeric ids.  `_link_neighbors` maps Link to the
neighbor componentId, `routes` maps componentId to Link, `central` holds
the Central mixin's directory when this node acts as central (None
otherwise).  Message contents other than the addressing are irrelevant to
the claims below and are not modelled. -/

/-- An entry of the central directory (`network.py`, `Central`):
a dict with keys id, name, serial.  Ids and serials are Python ints. -/
structure DirEntry where
  id : Int
  name : String
  serial : Int
  deriving DecidableEq, Repr

structure NodeState where
  link_neighbors : List (Nat × Nat)
  routes : List (Nat × Nat)
  parent : Nat
  base_priority : Nat
  priority : Nat
  name : String
  componentId : Nat
  serial : Nat
  reply_callbacks : List (Nat × Nat)
  central : Option (List DirEntry)
  deriving DecidableEq, Repr

/-- Source: `ComponentBase.forget_network` (componentbase.py lines 259-265): set
`self.parent = 0`, zero every value of `self._link_neighbors`, then call
`self.on_non_networked()`.  The returned Bool records that
`on_non_networked` was fired. -/
def forget_network (st : NodeState) : NodeState × Bool :=
  ({ st with parent := 0,
             link_neighbors := st.link_neighbors.map (fun p => (p.1, 0)) },
   true)

/-- Concrete networked child state used by the C1 counterexample:
componentId 5, a parent route and one other route. -/
def c1state : NodeState :=
  { link_neighbors := [(0, 3)], routes := [(3, 0), (1, 0)], parent := 3,
    base_priority := 0, priority := 7, name := "n", componentId := 5,
    serial := 77, reply_callbacks := [], central := none }

/-- C1 counterexample: after `forget_network` on a networked child with
componentId 5 and two routes, the componentId is still 5 (not 0) and the
routing table is still non-empty, refuting the claim at a concrete
input. -/
theorem forget_network_counterexample :
    ¬((forget_network c1state).1.componentId = 0 ∧
      (forget_network c1state).1.routes = []) := by
  decide

/-- C1 (amended): after `forget_network` returns, the node's parent is 0,
every neighbor-table entry maps to 0 (neighbor unknown), and
`on_non_networked` has been fired; the node's componentId and its routing
table `routes` are left unchanged. -/
theorem forget_network_spec (st : NodeState) :
    (forget_network st).1.parent = 0 ∧
    (∀ p ∈ (forget_network st).1.link_neighbors, p.2 = 0) ∧
    (forget_network st).2 = true ∧
    (forget_network st).1.componentId = st.componentId ∧
    (forget_network st).1.routes = st.routes := by
  refine ⟨rfl, ?_, rfl, rfl, rfl⟩
  intro p hp
  simp only [forget_network, List.mem_map] at hp
  obtain ⟨q, -, hq⟩ := hp
  rw [← hq]

/-! ## Message routing (core/componentbase.py, `handle_message`)

`handle_message(from_link, to, msg, timestamp)` is modelled on its
addressing decisions; the per-action dispatch once a message is consumed
locally is irrelevant to claim C5 and collapsed into `consumedSelf` /
`consumedLink`.  (The `to == 'null'` alias of `SSP_LINK_ID` is one more
spelling of the `consumedLink` branch.)  Link ids are Nat. -/

inductive RouteAction where
  /-- Source: `to == SSP_INVALID_COMPONENT_ID`: error('invalid to') and return. -/
  | droppedInvalidTo : RouteAction
  /-- Source: `to == self.componentId != 0`: the message is consumed by this node. -/
  | consumedSelf : RouteAction
  /-- Source: `to == SSP_LINK_ID` (or 'null'): link-local handling. -/
  | consumedLink : RouteAction
  /-- Source: `to_link.send(to, msg)`: forwarded on the given link. -/
  | forwarded (link : Nat) : RouteAction
  /-- Loop prevention: `self.error(...)` reported, message NOT sent
  ("Dropping msg that would be sent back on same link"). -/
  | droppedLoopError : RouteAction
  /-- Source: `self.error('Dropping msg due to no route')`. -/
  | droppedNoRoute : RouteAction
  deriving DecidableEq, Repr

/-- Source: `ComponentBase.parent_link` (componentbase.py lines 116-120): None when
parent is 0, else `self.routes[self.parent]` — a missing key raises a
Python KeyError, modelled as `.error ()`. -/
def parent_link (st : NodeState) : Except Unit (Option Nat) :=
  if st.parent = 0 then .ok none
  else
    match st.routes.lookup st.parent with
    | some l => .ok (some l)
    | none => .error ()

/-- The routing tail of `ComponentBase.handle_message` (componentbase.py
lines 293-424) restricted to its addressing decision. -/
def handle_message (st : NodeState) (from_link toAddr : Nat) :
    Except Unit RouteAction :=
  if toAddr = SSP_INVALID_COMPONENT_ID then .ok .droppedInvalidTo
  else if toAddr = st.componentId ∧ st.componentId ≠ SSP_INVALID_COMPONENT_ID then
    .ok .consumedSelf
  else if toAddr = SSP_LINK_ID then .ok .consumedLink
  else
    match st.routes.lookup (toAddr % SSP_COMPONENT_MODULUS) with
    | some to_link =>
        if to_link = from_link then .ok .droppedLoopError
        else .ok (.forwarded to_link)
    | none =>
        match parent_link st with
        | .error e => .error e
        | .ok none => .ok .droppedNoRoute
        | .ok (some pl) =>
            if pl = from_link then .ok .droppedLoopError
            else .ok (.forwarded pl)

/-- The next-hop decision of the router: the RoutingTable entry for the
destination component if present, else the parent link (none on a
KeyError or when unparented). -/
def routeDecision (st : NodeState) (toAddr : Nat) : Option Nat :=
  match st.routes.lookup (toAddr % SSP_COMPONENT_MODULUS) with
  | some l => some l
  | none =>
      match parent_link st with
      | .ok o => o
      | .error _ => none

/-- C5: for every inbound message not addressed to this node (and not
link-local or invalid), if the routing decision — RoutingTable entry, or
else the parent link — selects the link the message arrived on, then the
message is dropped with an error diagnostic (`droppedLoopError`) and in
particular is never forwarded on that link. -/
theorem route_loop_prevention (st : NodeState) (from_link toAddr : Nat)
    (h0 : toAddr ≠ SSP_INVALID_COMPONENT_ID)
    (hself : ¬(toAddr = st.componentId ∧ st.componentId ≠ SSP_INVALID_COMPONENT_ID))
    (hlink : toAddr ≠ SSP_LINK_ID)
    (hsel : routeDecision st toAddr = some from_link) :
    handle_message st from_link toAddr = .ok .droppedLoopError := by
  unfold handle_message
  rw [if_neg h0, if_neg hself, if_neg hlink]
  unfold routeDecision at hsel
  cases hr : st.routes.lookup (toAddr % SSP_COMPONENT_MODULUS) with
  | some l =>
    rw [hr] at hsel
    simp only [Option.some.injEq] at hsel
    subst hsel
    simp
  | none =>
    rw [hr] at hsel
    cases hp : parent_link st with
    | error e => rw [hp] at hsel; exact absurd hsel (by simp)
    | ok o =>
      rw [hp] at hsel
      cases o with
      | none => exact absurd hsel (by simp)
      | some pl =>
        simp only [Option.some.injEq] at hsel
        subst hsel
        simp [hp]

/-- Witness for C5: a child node with a route to component 2 over link 7;
a message to 2 arriving on link 7 is dropped with a diagnostic. -/
theorem route_loop_prevention_witness :
    handle_message
      { link_neighbors := [(7, 2)], routes := [(2, 7)], parent := 0,
        base_priority := 0, priority := 3, name := "w", componentId := 9,
        serial := 4, reply_callbacks := [], central := none } 7 2 =
      .ok .droppedLoopError :=
  route_loop_prevention _ 7 2 (by decide) (by decide) (by decide) (by decide)

/-! ## Registry (sspt/ontology.py, class RegistryClass)

`_pyObjs` maps an integer index to a pyObj (an SspPyObj instance);
`_labels` maps a label string to an index.  SspPyObj instances are
mutable Python objects: neither SspPyObj nor any of its subclasses
defines `__eq__`, so Python `==` on them is object identity.  An object
is modelled by an explicit identity `oid` together with its structural
content (abstracted to a Nat, compared by the `equals` methods), its
`regIx` and its `_label`. -/

structure PyObj where
  oid : Nat
  struct_val : Nat
  regIx : Option Nat
  label : Option String
  deriving DecidableEq, Repr

/-- Python `==` between two SspPyObj instances: no `__eq__` override
anywhere in the SspPyObj hierarchy, hence object identity. -/
def pyObjEq (a b : PyObj) : Bool := a.oid == b.oid

/-- Structural equality as implemented by the `equals` methods of
pyObjects.py (used by `RegistryClass.find`, not by `add`). -/
def pyObjEquals (a b : PyObj) : Bool := a.struct_val == b.struct_val

/-- Python dict assignment `d[k] = v`: replace in place if the key
exists, else append (insertion order preserved). -/
def dictSet (l : List (Nat × PyObj)) (k : Nat) (v : PyObj) : List (Nat × PyObj) :=
  if (l.lookup k).isSome then
    l.map (fun p => if p.1 == k then (k, v) else p)
  else l ++ [(k, v)]

def dictSetStr (l : List (String × Nat)) (k : String) (v : Nat) : List (String × Nat) :=
  if (l.lookup k).isSome then
    l.map (fun p => if p.1 == k then (k, v) else p)
  else l ++ [(k, v)]

structure RegistryClass where
  pyObjs : List (Nat × PyObj)
  labels : List (String × Nat)
  deriving DecidableEq, Repr

inductive AddOutcome where
  /-- Source: `raise obj.source.error("Can't add ... already occupied by ...")`. -/
  | conflictError : AddOutcome
  /-- One of the `assert` statements in `add` failed. -/
  | assertFailure : AddOutcome
  /-- Returned normally; carries the updated registry and the updated
  object (whose regIx / label `add` mutates). -/
  | ok (reg : RegistryClass) (obj : PyObj) : AddOutcome
  deriving DecidableEq, Repr

/-- Lines 64-74 of ontology.py with the final `label` value in hand: the
`_labels` bookkeeping (`assert self._labels[label] == index` when the
label is known, insertion otherwise), then `obj.regIx = index`. -/
def addFinishLabel (reg2 : RegistryClass) (index : Nat) (obj : PyObj)
    (label : Option String) : AddOutcome :=
  match label with
  | some l =>
    match reg2.labels.lookup l with
    | some ix =>
      if ix = index then
        .ok ⟨reg2.pyObjs, reg2.labels⟩ { obj with label := some l, regIx := some index }
      else .assertFailure
    | none =>
      .ok ⟨reg2.pyObjs, dictSetStr reg2.labels l index⟩
        { obj with label := some l, regIx := some index }
  | none => .ok reg2 { obj with regIx := some index }

/-- Lines 61-63 of ontology.py: `if obj._label is not None: assert label
is None or label == obj._label; label = obj._label`, then fall through to
the `_labels` bookkeeping. -/
def addMergeLabel (reg2 : RegistryClass) (index : Nat) (obj : PyObj)
    (label : Option String) : AddOutcome :=
  match obj.label with
  | some l =>
    if label = none ∨ label = some l then addFinishLabel reg2 index obj (some l)
    else .assertFailure
  | none => addFinishLabel reg2 index obj label

/-- The tail of `RegistryClass.add` after the conflict check (ontology.py
lines 55-74): store the object (`self._pyObjs[index] = obj`), take the
alias early return when the object already carries a different regIx
(`assert label is None` there), else merge labels and stamp
`obj.regIx = index`. -/
def addTail (reg : RegistryClass) (index : Nat) (obj : PyObj)
    (label : Option String) : AddOutcome :=
  match obj.regIx with
  | some r =>
    if r = index then addMergeLabel ⟨dictSet reg.pyObjs index obj, reg.labels⟩ index obj label
    else if label = none then .ok ⟨dictSet reg.pyObjs index obj, reg.labels⟩ obj
    else .assertFailure
  | none => addMergeLabel ⟨dictSet reg.pyObjs index obj, reg.labels⟩ index obj label

/-- Source: `RegistryClass.add` (ontology.py lines 48-74): if the index is
occupied and `not self._pyObjs[index] == obj` — Python object identity,
since SspPyObj and its subclasses define no `__eq__` — raise the conflict
error ("Can't add ... already occupied by ..."); otherwise fall through
to the store/label logic. -/
def RegistryClass.add (reg : RegistryClass) (index : Nat) (obj : PyObj)
    (label : Option String) : AddOutcome :=
  match reg.pyObjs.lookup index with
  | some existing =>
    if pyObjEq existing obj then addTail reg index obj label
    else .conflictError
  | none => addTail reg index obj label

theorem addFinishLabel_ne_conflict (reg2 : RegistryClass) (index : Nat)
    (obj : PyObj) (label : Option String) :
    addFinishLabel reg2 index obj label ≠ AddOutcome.conflictError := by
  intro h
  unfold addFinishLabel at h
  split at h
  · split at h
    · split at h
      · exact AddOutcome.noConfusion h
      · exact AddOutcome.noConfusion h
    · exact AddOutcome.noConfusion h
  · exact AddOutcome.noConfusion h

theorem addMergeLabel_ne_conflict (reg2 : RegistryClass) (index : Nat)
    (obj : PyObj) (label : Option String) :
    addMergeLabel reg2 index obj label ≠ AddOutcome.conflictError := by
  intro h
  unfold addMergeLabel at h
  split at h
  · split at h
    · exact addFinishLabel_ne_conflict _ _ _ _ h
    · exact AddOutcome.noConfusion h
  · exact addFinishLabel_ne_conflict _ _ _ _ h

theorem addTail_ne_conflict (reg : RegistryClass) (index : Nat)
    (obj : PyObj) (label : Option String) :
    addTail reg index obj label ≠ AddOutcome.conflictError := by
  intro h
  unfold addTail at h
  split at h
  · split at h
    · exact addMergeLabel_ne_conflict _ _ _ _ h
    · split at h
      · exact AddOutcome.noConfusion h
      · exact AddOutcome.noConfusion h
  · exact addMergeLabel_ne_conflict _ _ _ _ h

theorem add_eq_of_lookup (reg : RegistryClass) (index : Nat)
    (obj existing : PyObj) (label : Option String)
    (hex : reg.pyObjs.lookup index = some existing) :
    RegistryClass.add reg index obj label =
      if pyObjEq existing obj then addTail reg index obj label
      else AddOutcome.conflictError := by
  unfold RegistryClass.add
  rw [hex]

/-- Two distinct objects (oids 1 and 2) with identical structure 42. -/
def obj4a : PyObj := ⟨1, 42, some 5, none⟩

def obj4b : PyObj := ⟨2, 42, none, none⟩

def reg4 : RegistryClass := ⟨[(5, obj4a)], []⟩

/-- C4 counterexample: re-adding index 5 with `obj4b`, a structurally
identical (`pyObjEquals` holds) but distinct object, raises the conflict
error instead of succeeding silently: `==` on SspPyObj is object
identity, not structural equality. -/
theorem registry_add_counterexample :
    RegistryClass.add reg4 5 obj4b none = .conflictError ∧
    pyObjEquals obj4a obj4b = true := by
  constructor
  · rfl
  · rfl

/-- C4 (amended): with the index occupied, `add` raises the conflict
error exactly when the new object is not the very same Python object as
the existing entry (identity, not structural, equality); re-adding the
identical object (as left by its original registration, with
`regIx = index` and no label) succeeds silently, rewriting the same
entry in place. -/
theorem registry_add_conflict (reg : RegistryClass) (index : Nat)
    (obj existing : PyObj) (hex : reg.pyObjs.lookup index = some existing) :
    (RegistryClass.add reg index obj none = .conflictError ↔ existing.oid ≠ obj.oid) ∧
    (existing = obj → obj.regIx = some index → obj.label = none →
      RegistryClass.add reg index obj none =
        .ok ⟨dictSet reg.pyObjs index obj, reg.labels⟩ obj) := by
  constructor
  · constructor
    · intro h heq
      rw [add_eq_of_lookup reg index obj existing none hex,
        if_pos (by simp [pyObjEq, heq])] at h
      exact addTail_ne_conflict _ _ _ _ h
    · intro hne
      rw [add_eq_of_lookup reg index obj existing none hex,
        if_neg (by simp [pyObjEq, hne])]
  · intro heq hri hl
    subst heq
    rw [add_eq_of_lookup reg index existing existing none hex,
      if_pos (by simp [pyObjEq])]
    unfold addTail
    simp only [hri, if_pos rfl]
    unfold addMergeLabel
    simp only [hl]
    unfold addFinishLabel
    have hobj : ({ existing with regIx := some index } : PyObj) = existing := by
      cases existing
      simp only [PyObj.mk.injEq, and_true, true_and]
      simpa using hri.symm
    rw [hobj]
    simp

/-- Witness for C4's amended theorem, applied at the concrete registry
`reg4`: re-adding the very same object `obj4a` at index 5 succeeds. -/
theorem registry_add_witness :
    (RegistryClass.add reg4 5 obj4a none = .conflictError ↔ obj4a.oid ≠ obj4a.oid) ∧
    RegistryClass.add reg4 5 obj4a none =
      .ok ⟨dictSet reg4.pyObjs 5 obj4a, reg4.labels⟩ obj4a :=
  ⟨(registry_add_conflict reg4 5 obj4a obj4a rfl).1,
   (registry_add_conflict reg4 5 obj4a obj4a rfl).2 rfl rfl rfl⟩

/-! ## Central directory lookup (core/network.py, `Central.lookupId`)

Directory values are Python objects: names are str, ids and serials are
int.  Python `==` between values of different types is False, which the
`PyVal`/`pyEq` pair models. -/

inductive PyVal where
  | int (n : Int) : PyVal
  | str (s : String) : PyVal
  deriving DecidableEq, Repr

/-- Python `==` on primitive values: int/int and str/str compare by
value, str/int is always False. -/
def pyEq : PyVal → PyVal → Bool
  | .int a, .int b => a == b
  | .str a, .str b => a == b
  | _, _ => false

/-- Source: `Central.lookupId` (network.py lines 46-52): `string = str(string)`,
then scan `all_components` for the first entry where
`string == component['name'] or string == component['serial'] or
string == str(component['id'])`, returning its id; otherwise return
`SSP_INVALID_COMPONENT_ID`.  Note the middle comparison pits a str
against an int. -/
def lookupId (all_components : List DirEntry) (string : String) : Int :=
  match all_components.find? (fun c =>
      pyEq (.str string) (.str c.name) || pyEq (.str string) (.int c.serial) ||
      pyEq (.str string) (.str (toString c.id))) with
  | some c => c.id
  | none => (SSP_INVALID_COMPONENT_ID : Nat)

/-- C6, evaluated at the failing input: the directory knows one component
with id 5, name "abc", serial 1234, yet `lookupId "1234"` returns the
reserved invalid id 0, because the comparison of the query string with
the int-valued serial is always False in Python. -/
theorem lookupId_serial_misses :
    lookupId [⟨5, "abc", 1234⟩] "1234" = 0 ∧
    pyEq (.str "1234") (.int 1234) = false := by
  constructor
  · rfl
  · rfl

/-! ## Fixpoint null sentinels (sspt/pyObjects.py, FixpointTypeClass) -/

structure FixpointTypeClass where
  is_two_complement : Bool
  bits : Nat
  decimal_count : Nat
  deriving DecidableEq, Repr

/-- The raw null sentinel computed in `FixpointTypeClass.__init__`
(pyObjects.py lines 1628-1633): the most negative value for two's
complement types, the most positive for unsigned ones. -/
def raw_null_value (t : FixpointTypeClass) : Int :=
  if t.is_two_complement then -(2 ^ (t.bits - 1)) else 2 ^ t.bits - 1

structure Fixpoint where
  type : FixpointTypeClass
  raw_value : Int
  deriving DecidableEq, Repr

/-- Source: `FixpointTypeClass.from_pyValue` (pyObjects.py lines 1678-1685):
None maps to the raw null sentinel; a negative value on an unsigned type
raises; otherwise `int(value * 10**decimal_count)` (exact for the int
inputs modelled here). -/
def from_pyValue (t : FixpointTypeClass) (value : Option Int) : Except String Fixpoint :=
  match value with
  | none => .ok ⟨t, raw_null_value t⟩
  | some v =>
    if ¬t.is_two_complement ∧ v < 0 then
      .error "Unsigned fixpoint type cannot encode negative value"
    else .ok ⟨t, v * 10 ^ t.decimal_count⟩

/-- Source: `Fixpoint.is_null` (pyObjects.py lines 1715-1716). -/
def Fixpoint.is_null (f : Fixpoint) : Bool :=
  f.raw_value == raw_null_value f.type

/-- C8: for every fixpoint type with bits in {8,16,32}, the reserved null
sentinel raw value is -(2^(bits-1)) when signed and 2^bits - 1 when
unsigned; `from_pyValue None` yields exactly that raw value, and
`is_null` holds exactly for it. -/
theorem fixpoint_null_sentinel (t : FixpointTypeClass)
    (hbits : t.bits = 8 ∨ t.bits = 16 ∨ t.bits = 32) :
    (t.is_two_complement = true → raw_null_value t = -(2 ^ (t.bits - 1))) ∧
    (t.is_two_complement = false → raw_null_value t = 2 ^ t.bits - 1) ∧
    from_pyValue t none = .ok ⟨t, raw_null_value t⟩ ∧
    (∀ f : Fixpoint, f.type = t → (f.is_null = true ↔ f.raw_value = raw_null_value t)) := by
  refine ⟨?_, ?_, rfl, ?_⟩
  · intro h; simp [raw_null_value, h]
  · intro h; simp [raw_null_value, h]
  · intro f hf; simp [Fixpoint.is_null, hf]

/-- Witness for C8 at the signed 16-bit type with 2 decimals. -/
theorem fixpoint_null_sentinel_witness :
    from_pyValue ⟨true, 16, 2⟩ none =
      .ok ⟨⟨true, 16, 2⟩, raw_null_value ⟨true, 16, 2⟩⟩ :=
  (fixpoint_null_sentinel ⟨true, 16, 2⟩ (by decide)).2.2.1

/-! ## Self-election as central (componentbase.py `act_as_central`,
network.py `Central.__init__` / `init_all_local` / `act_as_central`) -/

/-- Source: `Central.init_all_local` (network.py lines 24-33): snapshot every
ComponentBase in the global `all_componentbases` list into the directory,
reading each one's componentId, name and serial at call time. -/
def init_all_local (bases : List NodeState) : List DirEntry :=
  bases.map (fun b => ⟨(b.componentId : Int), b.name, (b.serial : Int)⟩)

/-- Source: `ComponentBase.act_as_central` (componentbase.py lines 591-595)
followed by `Central.act_as_central` (network.py lines 137-147): assert
no central yet, construct the Central object — whose `__init__` calls
`init_all_local`, snapshotting the current (pre-election) componentIds —
then assert base_priority > 0 and set priority, componentId =
SSP_CENTRAL_ID and parent = 0, firing on_networked.  `allBases` is the
global `all_componentbases` list and `k` the acting node's position. -/
def act_as_central (allBases : List NodeState) (k : Nat) :
    Except Unit (List NodeState) :=
  match allBases.get? k with
  | none => .error ()
  | some b =>
    if b.central ≠ none then .error ()
    else if b.base_priority = 0 then .error ()
    else
      .ok (allBases.set k
        { b with central := some (init_all_local allBases),
                 priority := b.base_priority,
                 componentId := SSP_CENTRAL_ID,
                 parent := 0 })

/-- C9: when a node with componentId 0 self-elects via `act_as_central`,
the directory snapshot taken in `Central.__init__` records id 0 for the
node itself — not the central id 1 assigned immediately afterwards — so
(when no other local node held id 1) the directory has no entry with
id 1. -/
theorem act_as_central_directory (allBases : List NodeState) (k : Nat)
    (b : NodeState) (hk : allBases.get? k = some b) (hid : b.componentId = 0)
    (hc : b.central = none) (hp : 0 < b.base_priority) :
    act_as_central allBases k =
      .ok (allBases.set k
        { b with central := some (init_all_local allBases),
                 priority := b.base_priority,
                 componentId := SSP_CENTRAL_ID,
                 parent := 0 }) ∧
    (init_all_local allBases).get? k = some ⟨0, b.name, b.serial⟩ ∧
    ((∀ x ∈ allBases, x.componentId ≠ 1) →
      ∀ e ∈ init_all_local allBases, e.id ≠ 1) := by
  refine ⟨?_, ?_, ?_⟩
  · unfold act_as_central
    rw [hk]
    simp [hc, Nat.pos_iff_ne_zero.mp hp]
  · unfold init_all_local
    rw [List.get?_map, hk]
    simp [hid]
  · intro hall e he
    obtain ⟨x, hx, rfl⟩ := List.mem_map.mp he
    have := hall x hx
    simp only [ne_eq]
    omega

/-- A single unnetworked node with base_priority 50, as in the claim. -/
def c9base : NodeState :=
  { link_neighbors := [], routes := [], parent := 0, base_priority := 50,
    priority := 0, name := "A", componentId := 0, serial := 42,
    reply_callbacks := [], central := none }

/-- Witness for C9: the single-node scenery; the directory entry for the
new central carries id 0 and nothing in the directory carries id 1. -/
theorem act_as_central_witness :
    act_as_central [c9base] 0 =
      .ok ([c9base].set 0
        { c9base with central := some (init_all_local [c9base]),
                      priority := c9base.base_priority,
                      componentId := SSP_CENTRAL_ID,
                      parent := 0 }) ∧
    (init_all_local [c9base]).get? 0 = some ⟨0, c9base.name, c9base.serial⟩ ∧
    ((∀ x ∈ [c9base], x.componentId ≠ 1) →
      ∀ e ∈ init_all_local [c9base], e.id ≠ 1) :=
  act_as_central_directory [c9base] 0 c9base rfl rfl rfl (by decide)

/-! ## Line framing (core/framing.py, class LineReader)

Bytes are Nat.  `self._data` is the buffered bytearray, `self._last_char`
the last terminator seen (None initially).  ASCII decoding succeeds
exactly when every byte is < 128; emitted lines are returned as byte
lists in callback order. -/

def CR : Nat := 13

def LF : Nat := 10

/-- Source: `bytearray.find(byte)`: index of the first occurrence; Python's -1
for "absent" is `none`. -/
def bfind (b : Nat) : List Nat → Option Nat
  | [] => none
  | x :: xs => if x = b then some 0 else (bfind b xs).map (· + 1)

/-- One pass of the while-loop of `LineReader.data_received` (framing.py
lines 45-75): find the first CR (`ix`) and first LF (`ix2`); exit the
loop when neither occurs; otherwise the earlier one ends the line
`self._data[:ix]` and the buffer becomes `self._data[ix+1:]`.  A single
position cannot hold both CR and LF, so the `ix = ix2` fall-through of
the Python conditions is unreachable; it is folded into the CR arm. -/
def lrStep (data : List Nat) : Option (List Nat × Nat × List Nat) :=
  match bfind CR data, bfind LF data with
  | none, none => none
  | none, some j => some (data.take j, LF, data.drop (j + 1))
  | some i, none => some (data.take i, CR, data.drop (i + 1))
  | some i, some j =>
    if j < i then some (data.take j, LF, data.drop (j + 1))
    else some (data.take i, CR, data.drop (i + 1))

/-- Structural characterization of `lrStep`: scan to the first byte that
is CR or LF.  Proved equal to `lrStep` below; used to drive inductions. -/
def splitTerm : List Nat → Option (List Nat × Nat × List Nat)
  | [] => none
  | b :: bs =>
    if b = CR ∨ b = LF then some ([], b, bs)
    else (splitTerm bs).map (fun r => (b :: r.1, r.2.1, r.2.2))

/-- The LF branch of the loop (framing.py lines 50-62): guard
`if line or self._last_char == '\n'`, ASCII-decode (None on failure),
then `if s:` — false both for None and for the EMPTY string, so an empty
line never reaches the callback on this branch. -/
def emitLF (line : List Nat) (last : Option Nat) : List (List Nat) :=
  if line ≠ [] ∨ last = some LF then
    if line.all (fun b => b < 128) ∧ line ≠ [] then [line] else []
  else []

/-- The CR branch of the loop (framing.py lines 63-75): guard
`if line or self._last_char == '\r'`, ASCII-decode, then
`if decoded is not None:` — here the empty string IS emitted. -/
def emitCR (line : List Nat) (last : Option Nat) : List (List Nat) :=
  if line ≠ [] ∨ last = some CR then
    if line.all (fun b => b < 128) then [line] else []
  else []

def emitTerm (c : Nat) (line : List Nat) (last : Option Nat) : List (List Nat) :=
  if c = LF then emitLF line last else emitCR line last

/-- The while-loop of `data_received`, fuelled: each iteration removes at
least one byte from the buffer, so `data.length` fuel runs it to
completion. -/
def lrGo : Nat → List Nat → Option Nat → List (List Nat) × List Nat × Option Nat
  | 0, data, last => ([], data, last)
  | n + 1, data, last =>
    match lrStep data with
    | none => ([], data, last)
    | some (line, c, rest) =>
      (emitTerm c line last ++ (lrGo n rest (some c)).1, (lrGo n rest (some c)).2)

/-- Run the loop of `data_received` to completion on a buffer. -/
def lrProcess (data : List Nat) (last : Option Nat) :
    List (List Nat) × List Nat × Option Nat :=
  lrGo data.length data last

structure LRState where
  data : List Nat
  last : Option Nat
  deriving DecidableEq, Repr

/-- Source: `LineReader.__init__`: empty buffer, `_last_char = None`. -/
def initLR : LRState := ⟨[], none⟩

/-- Source: `LineReader.data_received` (framing.py lines 43-75): append the new
bytes to `self._data`, then loop until no terminator remains.  Returns
the lines handed to `on_line_cb`, in order, and the successor state. -/
def data_received (st : LRState) (d : List Nat) : List (List Nat) × LRState :=
  ((lrProcess (st.data ++ d) st.last).1,
   ⟨(lrProcess (st.data ++ d) st.last).2.1,
    (lrProcess (st.data ++ d) st.last).2.2⟩)

/-- Deliver a list of chunks one `data_received` call at a time,
concatenating the emitted lines. -/
def feedChunks (st : LRState) : List (List Nat) → List (List Nat) × LRState
  | [] => ([], st)
  | d :: ds =>
    ((data_received st d).1 ++ (feedChunks (data_received st d).2 ds).1,
     (feedChunks (data_received st d).2 ds).2)

/-! ### Framing lemmas and claims C3, C7 -/

theorem lrStep_eq_splitTerm (data : List Nat) : lrStep data = splitTerm data := by
  induction data with
  | nil => rfl
  | cons b bs ih =>
    by_cases hcr : b = CR
    · subst hcr
      have h1 : bfind CR (CR :: bs) = some 0 := by simp [bfind]
      have h2 : bfind LF (CR :: bs) = (bfind LF bs).map (· + 1) := by
        simp [bfind, CR, LF]
      unfold lrStep
      rw [h1, h2]
      cases hL : bfind LF bs <;> simp [splitTerm]
    · by_cases hlf : b = LF
      · subst hlf
        have h1 : bfind LF (LF :: bs) = some 0 := by simp [bfind]
        have h2 : bfind CR (LF :: bs) = (bfind CR bs).map (· + 1) := by
          simp [bfind, CR, LF]
        unfold lrStep
        rw [h1, h2]
        cases hC : bfind CR bs <;> simp [splitTerm]
      · have hsp : splitTerm (b :: bs) =
            (lrStep bs).map (fun r => (b :: r.1, r.2.1, r.2.2)) := by
          simp [splitTerm, hcr, hlf, ih]
        rw [hsp]
        cases hC : bfind CR bs <;> cases hL : bfind LF bs <;>
          simp [lrStep, bfind, hcr, hlf, hC, hL]
        split <;> simp

theorem splitTerm_length :
    ∀ (data : List Nat) (r : List Nat × Nat × List Nat),
      splitTerm data = some r → r.2.2.length < data.length := by
  intro data
  induction data with
  | nil => intro r h; exact absurd h (by simp [splitTerm])
  | cons b bs ih =>
    intro r h
    simp only [splitTerm] at h
    split at h
    · cases h
      simp
    · cases hs : splitTerm bs with
      | none => rw [hs] at h; exact absurd h (by simp)
      | some q =>
        rw [hs] at h
        simp at h
        subst h
        have := ih q hs
        simp only [List.length_cons]
        omega

theorem splitTerm_append (l e : List Nat) :
    splitTerm (l ++ e) =
      match splitTerm l with
      | some r => some (r.1, r.2.1, r.2.2 ++ e)
      | none => (splitTerm e).map (fun r => (l ++ r.1, r.2.1, r.2.2)) := by
  induction l with
  | nil =>
    cases hse : splitTerm e with
    | none => simp [splitTerm, hse]
    | some q => simp [splitTerm, hse]
  | cons b bs ih =>
    by_cases hb : b = CR ∨ b = LF
    · simp [splitTerm, hb]
    · simp only [List.cons_append, splitTerm, if_neg hb, List.append_eq]
      rw [ih]
      cases hs : splitTerm bs with
      | none => cases splitTerm e <;> simp
      | some q => simp

theorem lrGo_none (n : Nat) (data : List Nat) (last : Option Nat)
    (h : lrStep data = none) : lrGo n data last = ([], data, last) := by
  cases n with
  | zero => rfl
  | succ m => simp only [lrGo, h]

theorem lrGo_succ (n : Nat) (data : List Nat) (last : Option Nat)
    (line : List Nat) (c : Nat) (rest : List Nat)
    (h : lrStep data = some (line, c, rest)) :
    lrGo (n + 1) data last =
      (emitTerm c line last ++ (lrGo n rest (some c)).1, (lrGo n rest (some c)).2) := by
  simp only [lrGo, h]

theorem lrGo_fuel :
    ∀ (n m : Nat) (data : List Nat) (last : Option Nat),
      data.length ≤ n → data.length ≤ m → lrGo n data last = lrGo m data last := by
  intro n
  induction n with
  | zero =>
    intro m data last hn _
    have hdata : data = [] := List.length_eq_zero.mp (Nat.le_zero.mp hn)
    subst hdata
    rw [lrGo_none 0 [] last rfl, lrGo_none m [] last rfl]
  | succ k ih =>
    intro m data last hn hm
    cases hs : lrStep data with
    | none => rw [lrGo_none _ _ _ hs, lrGo_none _ _ _ hs]
    | some r =>
      obtain ⟨line, c, rest⟩ := r
      have hsplit : splitTerm data = some (line, c, rest) := by
        rw [← lrStep_eq_splitTerm]; exact hs
      have hlen : rest.length < data.length :=
        splitTerm_length data (line, c, rest) hsplit
      obtain ⟨m2, rfl⟩ : ∃ m2, m = m2 + 1 := ⟨m - 1, by omega⟩
      rw [lrGo_succ k data last line c rest hs,
        lrGo_succ m2 data last line c rest hs,
        ih m2 rest (some c) (by omega) (by omega)]

theorem lrProcess_none {data : List Nat} {last : Option Nat}
    (h : lrStep data = none) : lrProcess data last = ([], data, last) :=
  lrGo_none data.length data last h

theorem lrProcess_some {data : List Nat} {last : Option Nat}
    {line : List Nat} {c : Nat} {rest : List Nat}
    (h : lrStep data = some (line, c, rest)) :
    lrProcess data last =
      (emitTerm c line last ++ (lrProcess rest (some c)).1,
       (lrProcess rest (some c)).2) := by
  have hsplit : splitTerm data = some (line, c, rest) := by
    rw [← lrStep_eq_splitTerm]; exact h
  have hlen : rest.length < data.length :=
    splitTerm_length data (line, c, rest) hsplit
  unfold lrProcess
  obtain ⟨m, hm⟩ : ∃ m, data.length = m + 1 := ⟨data.length - 1, by omega⟩
  rw [hm, lrGo_succ m data last line c rest h,
    lrGo_fuel m rest.length rest (some c) (by omega) (Nat.le_refl _)]

theorem lrProcess_residual :
    ∀ (n : Nat) (data : List Nat) (last : Option Nat), data.length ≤ n →
      lrStep (lrProcess data last).2.1 = none := by
  intro n
  induction n with
  | zero =>
    intro data last hn
    have hdata : data = [] := List.length_eq_zero.mp (Nat.le_zero.mp hn)
    subst hdata
    rw [@lrProcess_none [] last rfl]
    rfl
  | succ k ih =>
    intro data last hn
    cases hs : lrStep data with
    | none => rw [lrProcess_none hs]; exact hs
    | some r =>
      obtain ⟨line, c, rest⟩ := r
      have hsplit : splitTerm data = some (line, c, rest) := by
        rw [← lrStep_eq_splitTerm]; exact hs
      have hlen : rest.length < data.length :=
        splitTerm_length data (line, c, rest) hsplit
      rw [lrProcess_some hs]
      exact ih rest (some c) (by omega)

theorem lrProcess_append :
    ∀ (n : Nat) (data : List Nat), data.length ≤ n →
      ∀ (extra : List Nat) (last : Option Nat),
      lrProcess (data ++ extra) last =
        ((lrProcess data last).1 ++
          (lrProcess ((lrProcess data last).2.1 ++ extra)
            (lrProcess data last).2.2).1,
         (lrProcess ((lrProcess data last).2.1 ++ extra)
            (lrProcess data last).2.2).2) := by
  intro n
  induction n with
  | zero =>
    intro data hn extra last
    have hdata : data = [] := List.length_eq_zero.mp (Nat.le_zero.mp hn)
    subst hdata
    rw [@lrProcess_none [] last rfl]
    simp
  | succ k ih =>
    intro data hn extra last
    cases hs : lrStep data with
    | none =>
      rw [lrProcess_none hs]
      simp
    | some r =>
      obtain ⟨line, c, rest⟩ := r
      have hsplit : splitTerm data = some (line, c, rest) := by
        rw [← lrStep_eq_splitTerm]; exact hs
      have hlen : rest.length < data.length :=
        splitTerm_length data (line, c, rest) hsplit
      have hs2 : lrStep (data ++ extra) = some (line, c, rest ++ extra) := by
        rw [lrStep_eq_splitTerm, splitTerm_append, hsplit]
      rw [lrProcess_some hs2, lrProcess_some hs,
        ih rest (by omega) extra (some c)]
      simp [List.append_assoc]

theorem feedChunks_eq (chunks : List (List Nat)) :
    ∀ st : LRState, lrStep st.data = none →
      feedChunks st chunks = data_received st chunks.join := by
  induction chunks with
  | nil =>
    intro st hst
    simp only [feedChunks, List.join_nil]
    unfold data_received
    rw [List.append_nil, lrProcess_none hst]
  | cons d ds ih =>
    intro st hst
    have hres : lrStep (data_received st d).2.data = none :=
      lrProcess_residual (st.data ++ d).length (st.data ++ d) st.last
        (Nat.le_refl _)
    simp only [feedChunks, List.join_cons]
    rw [ih (data_received st d).2 hres]
    unfold data_received
    rw [← List.append_assoc,
      lrProcess_append (st.data ++ d).length (st.data ++ d) (Nat.le_refl _)
        ds.join st.last]

/-- C7: the line reader's output is invariant under chunking — for every
byte sequence and every split of it into successive chunks, delivering
the chunks one by one through `data_received` yields exactly the same
emitted lines (and the same final reader state) as one call on the whole
sequence. -/
theorem lineReader_chunk_invariant (chunks : List (List Nat)) :
    feedChunks initLR chunks = data_received initLR chunks.join :=
  feedChunks_eq chunks initLR rfl

/-- C3, evaluated: `"hello\r\nabc\r\n"` yields `["hello","abc"]` and
`"a\r\r"` does yield the empty line, but `"hello\n\n"` yields only
`["hello"]`: the `if s:` truthiness test in the LF branch also rejects
the empty string, dropping the empty line its own guard
(`if line or self._last_char == '\n'`) had admitted. -/
theorem lineReader_lf_lf_drops_empty :
    (data_received initLR [104, 101, 108, 108, 111, 13, 10, 97, 98, 99, 13, 10]).1 =
      [[104, 101, 108, 108, 111], [97, 98, 99]] ∧
    (data_received initLR [97, 13, 13]).1 = [[97], []] ∧
    (data_received initLR [104, 101, 108, 108, 111, 10, 10]).1 =
      [[104, 101, 108, 108, 111]] := by
  refine ⟨rfl, rfl, rfl⟩
